import Mathlib

/-
Verification development for the pyKumaAPI repository (an Uptime Kuma
monitoring-service client plus example scripts).

The repository's visible source consists of two example scripts,
`examples/basic_monitoring.py` and `examples/real_time_events.py`; the
client core (`uptime_kuma_api.UptimeKumaClient`) is not present in the
source tree and is modelled from the specification where claims require
it.  Pure helper functions and the control flow of the example scripts
are embedded directly from the source.
-/

set_option autoImplicit false

/-! ## Python value model

A shallow embedding of the Python values that flow through the example
scripts: `None`, integers, strings and booleans.  Floats, lists and
nested dictionaries do not occur in the claims settled here. -/

/-- A Python scalar value as used by the heartbeat dictionaries. -/
inductive PyVal where
  | none
  | int (n : Int)
  | str (s : String)
  | bool (b : Bool)
  deriving DecidableEq, Repr

/-- A Python dictionary with string keys, as an association list
(first match wins; real dictionaries have unique keys). -/
def PyDict : Type := List (String × PyVal)

/-- First-match association lookup, the core of Python `dict.get`. -/
def assocFind {α : Type} {β : Type} [DecidableEq α] (k : α) : List (α × β) → Option β
  | [] => Option.none
  | (k2, v) :: rest => if k = k2 then some v else assocFind k rest

/-- Python `data.get(key)`: the stored value, or `None` when the key is
missing. -/
def dictGet (d : PyDict) (k : String) : PyVal :=
  (assocFind k d).getD PyVal.none

/-- Python `data.get(key, default)`. -/
def dictGetD (d : PyDict) (k : String) (dflt : PyVal) : PyVal :=
  (assocFind k d).getD dflt

/-- Python `str()` / f-string rendering of a scalar value. -/
def pyStr : PyVal → String
  | PyVal.none => "None"
  | PyVal.int n => toString n
  | PyVal.str s => s
  | PyVal.bool true => "True"
  | PyVal.bool false => "False"

/-- Python truthiness of a scalar value: `None`, `0`, `""` and `False`
are falsy, everything else is truthy. -/
def pyTruthy : PyVal → Bool
  | PyVal.none => false
  | PyVal.int n => n != 0
  | PyVal.str s => s != ""
  | PyVal.bool b => b

/-! ## format_heartbeat (examples/real_time_events.py, lines 14-30)

`format_heartbeat(data)` reads `monitorID`, `status`, `ping` and `msg`
from the heartbeat dictionary, renders the status through a literal
dictionary lookup with default `f"UNKNOWN({status})"`, appends a
latency suffix only when `ping` is truthy, and assembles one line. -/

/-- The literal status dictionary `{0: "🔴 DOWN", 1: "🟢 UP", 2: "🟡
PENDING", 3: "🟠 MAINTENANCE"}` viewed as a partial map.  Python bools
compare and hash equal to `0`/`1`, so they hit the same entries. -/
def statusEntry : PyVal → Option String
  | PyVal.int (Int.ofNat 0) => some "🔴 DOWN"
  | PyVal.int (Int.ofNat 1) => some "🟢 UP"
  | PyVal.int (Int.ofNat 2) => some "🟡 PENDING"
  | PyVal.int (Int.ofNat 3) => some "🟠 MAINTENANCE"
  | PyVal.bool false => some "🔴 DOWN"
  | PyVal.bool true => some "🟢 UP"
  | _ => Option.none

/-- Whether the status value hits an entry of the literal dictionary. -/
def statusKnown (s : PyVal) : Bool :=
  (statusEntry s).isSome

/-- The `status_text` expression: dictionary lookup with default
`f"UNKNOWN({status})"`. -/
def status_lookup (s : PyVal) : String :=
  (statusEntry s).getD ("UNKNOWN(" ++ pyStr s ++ ")")

/-- The `ping_text` expression: `f" ({ping}ms)" if ping else ""`. -/
def ping_text (p : PyVal) : String :=
  if pyTruthy p then " (" ++ pyStr p ++ "ms)" else ""

/-- The final f-string of `format_heartbeat`:
`f"Monitor {monitor_id}: {status_text}{ping_text} - {msg}"`. -/
def heartbeat_line (mid st pt ms : String) : String :=
  "Monitor " ++ mid ++ ": " ++ st ++ pt ++ " - " ++ ms

/-- `format_heartbeat(data)` embedded from the source.  It is a total
Lean function: on the modelled value domain no step of the Python code
can raise (`dict.get` never raises on hashable keys, and f-strings
render any value). -/
def format_heartbeat (d : PyDict) : String :=
  heartbeat_line
    (pyStr (dictGet d "monitorID"))
    (status_lookup (dictGet d "status"))
    (ping_text (dictGet d "ping"))
    (pyStr (dictGetD d "msg" (PyVal.str "")))

/-- C8: format_heartbeat is total over heartbeat dictionaries (it is a
Lean function to `String`, defined on every dictionary, including one
whose status is absent — then `dictGet` yields `PyVal.none` — or
outside {0, 1, 2, 3}); an unrecognized status `s` is rendered as the
text `UNKNOWN(s)` inside the formatted line rather than rejected. -/
theorem format_heartbeat_unknown_status (d : PyDict)
    (h : statusKnown (dictGet d "status") = false) :
    format_heartbeat d =
      heartbeat_line
        (pyStr (dictGet d "monitorID"))
        ("UNKNOWN(" ++ pyStr (dictGet d "status") ++ ")")
        (ping_text (dictGet d "ping"))
        (pyStr (dictGetD d "msg" (PyVal.str ""))) := by
  have hnone : statusEntry (dictGet d "status") = Option.none := by
    unfold statusKnown at h
    exact Option.not_isSome_iff_eq_none.mp (by simp [h])
  unfold format_heartbeat status_lookup
  rw [hnone]
  rfl

/-- Witness for C8: a concrete heartbeat whose status `5` is outside
the literal dictionary is rendered with an `UNKNOWN(5)` status text. -/
theorem format_heartbeat_unknown_status_witness :
    statusKnown (dictGet [("status", PyVal.int 5)] "status") = false ∧
    format_heartbeat [("status", PyVal.int 5)] =
      heartbeat_line
        (pyStr (dictGet [("status", PyVal.int 5)] "monitorID"))
        ("UNKNOWN(" ++ pyStr (dictGet [("status", PyVal.int 5)] "status") ++ ")")
        (ping_text (dictGet [("status", PyVal.int 5)] "ping"))
        (pyStr (dictGetD [("status", PyVal.int 5)] "msg" (PyVal.str ""))) :=
  ⟨by decide, format_heartbeat_unknown_status [("status", PyVal.int 5)] (by decide)⟩

/-- C9: when the ping value is falsy — `0`, `None`, or missing (then
`dictGet` yields `PyVal.none`) — the ping suffix is the empty string
and the formatted line is exactly the line with no latency segment, so
a measured latency of 0 ms is displayed identically to no latency. -/
theorem format_heartbeat_falsy_ping (d : PyDict)
    (h : pyTruthy (dictGet d "ping") = false) :
    ping_text (dictGet d "ping") = "" ∧
    format_heartbeat d =
      heartbeat_line
        (pyStr (dictGet d "monitorID"))
        (status_lookup (dictGet d "status"))
        ""
        (pyStr (dictGetD d "msg" (PyVal.str ""))) := by
  have hp : ping_text (dictGet d "ping") = "" := by
    unfold ping_text
    rw [h]
    rfl
  exact ⟨hp, by unfold format_heartbeat; rw [hp]⟩

/-- Witness for C9: a heartbeat with a measured latency of 0 ms is
formatted with no latency segment. -/
theorem format_heartbeat_falsy_ping_witness :
    pyTruthy (dictGet [("monitorID", PyVal.int 3), ("status", PyVal.int 1),
        ("ping", PyVal.int 0), ("msg", PyVal.str "OK")] "ping") = false ∧
    (ping_text (dictGet [("monitorID", PyVal.int 3), ("status", PyVal.int 1),
        ("ping", PyVal.int 0), ("msg", PyVal.str "OK")] "ping") = "" ∧
    format_heartbeat [("monitorID", PyVal.int 3), ("status", PyVal.int 1),
        ("ping", PyVal.int 0), ("msg", PyVal.str "OK")] =
      heartbeat_line
        (pyStr (dictGet [("monitorID", PyVal.int 3), ("status", PyVal.int 1),
          ("ping", PyVal.int 0), ("msg", PyVal.str "OK")] "monitorID"))
        (status_lookup (dictGet [("monitorID", PyVal.int 3), ("status", PyVal.int 1),
          ("ping", PyVal.int 0), ("msg", PyVal.str "OK")] "status"))
        ""
        (pyStr (dictGetD [("monitorID", PyVal.int 3), ("status", PyVal.int 1),
          ("ping", PyVal.int 0), ("msg", PyVal.str "OK")] "msg" (PyVal.str "")))) :=
  ⟨by decide, format_heartbeat_falsy_ping [("monitorID", PyVal.int 3),
    ("status", PyVal.int 1), ("ping", PyVal.int 0), ("msg", PyVal.str "OK")] (by decide)⟩

/-! ## Client core, modelled from the spec

The repository ships no implementation of `UptimeKumaClient`; only the
example scripts that call it are present.  The session state machine,
request/response correlator, event dispatcher and monitor command
facade below are modelled from the specification's component design
(sections 4.1-4.4). -/

/-- Modelled from the spec: the session state machine's states
(section 4.1); the client implementation holding them is missing from
the source tree. -/
inductive ConnState where
  | Disconnected
  | Connecting
  | Connected
  | Authenticated
  | Disconnecting
  deriving DecidableEq, Repr

/-- Modelled from the spec: the eventual result of a correlated
command — a response payload, or the `ConnectionClosed` / `Timeout`
failures of section 4.2.  The correlator implementation is missing
from the source tree. -/
inductive CmdResult where
  | success (v : String)
  | connectionClosed
  | timeout
  deriving DecidableEq, Repr

/-- Boolean membership in the pending-id table. -/
def memNat (id : Nat) : List Nat → Bool
  | [] => false
  | x :: rest => if id = x then true else memNat id rest

/-- Removal of one id from the pending-id table. -/
def removeNat (id : Nat) : List Nat → List Nat
  | [] => []
  | x :: rest => if id = x then rest else x :: removeNat id rest

/-- Modelled from the spec: the client's session plus correlator state
(sections 3, 4.1, 4.2) — connection state, authentication token, the
monotonically increasing correlation-id counter, the table of pending
correlation ids, and the resolutions already delivered to callers.
The `UptimeKumaClient` implementation is missing from the source
tree. -/
structure ClientState where
  state : ConnState
  token : Option String
  nextId : Nat
  pending : List Nat
  resolved : List (Nat × CmdResult)
  deriving DecidableEq, Repr

/-- A session is alive for correlated traffic once the transport is
connected (states `Connected` and `Authenticated`). -/
def alive (c : ClientState) : Bool :=
  c.state = ConnState.Connected ∨ c.state = ConnState.Authenticated

/-- Modelled from the spec: the correlator's send half (section 4.2) —
it assigns the next correlation id, unique within the session's
lifetime, and registers a PendingRequest; when the session is not
alive nothing is sent and no id is assigned.  The correlator
implementation is missing from the source tree. -/
def sendCmd (c : ClientState) : ClientState × Option Nat :=
  if alive c then
    ({ c with nextId := c.nextId + 1, pending := c.nextId :: c.pending },
      some c.nextId)
  else (c, Option.none)

/-- Modelled from the spec: the correlator's receive half (section
4.2) — a response frame carrying a correlation id resolves the
matching PendingRequest with the response payload; a frame matching no
pending id is ignored.  The correlator implementation is missing from
the source tree. -/
def handleResponse (c : ClientState) (id : Nat) (v : String) : ClientState :=
  if memNat id c.pending then
    { c with pending := removeNat id c.pending,
             resolved := (id, CmdResult.success v) :: c.resolved }
  else c

/-- The resolution a caller observes for a given correlation id. -/
def resultOf (c : ClientState) (id : Nat) : Option CmdResult :=
  assocFind id c.resolved

/-- Modelled from the spec: `disconnect()` (section 4.1) — valid from
any state, it force-resolves every PendingRequest with a "connection
closed" failure, clears the authentication token and ends in state
`Disconnected`.  The session implementation is missing from the
source tree. -/
def disconnect (c : ClientState) : ClientState :=
  { state := ConnState.Disconnected,
    token := Option.none,
    nextId := c.nextId,
    pending := [],
    resolved := c.pending.map (fun i => (i, CmdResult.connectionClosed)) ++ c.resolved }

/-- Resolution under a constant-value map: every pending id is found
with that value. -/
theorem assocFind_map_mem {v : CmdResult} {l : List Nat} {id : Nat}
    (h : memNat id l = true) :
    assocFind id (l.map (fun i => (i, v))) = some v := by
  induction l with
  | nil => simp [memNat] at h
  | cons x rest ih =>
    by_cases hx : id = x
    · simp [assocFind, hx]
    · simp [memNat, hx] at h
      simp [assocFind, hx, ih h]

/-- A hit in the left part of an association list survives
appending. -/
theorem assocFind_append_left {β : Type} {l1 l2 : List (Nat × β)} {id : Nat}
    {v : β} (h : assocFind id l1 = some v) :
    assocFind id (l1 ++ l2) = some v := by
  induction l1 with
  | nil => simp [assocFind] at h
  | cons p rest ih =>
    by_cases hx : id = p.1
    · simpa [assocFind, hx] using h
    · simp [assocFind, hx] at h ⊢
      exact ih h

/-- C2: after `disconnect()` the set of PendingRequests is empty, the
state is `Disconnected`, and every request outstanding at the moment
of the call has been resolved with the `ConnectionClosed` ("connection
closed") failure — no outstanding command is left unresolved. -/
theorem disconnect_resolves_all_pending (c : ClientState) (id : Nat)
    (h : memNat id c.pending = true) :
    (disconnect c).pending = [] ∧
    (disconnect c).state = ConnState.Disconnected ∧
    resultOf (disconnect c) id = some CmdResult.connectionClosed := by
  refine ⟨rfl, rfl, ?_⟩
  unfold resultOf disconnect
  exact assocFind_append_left (assocFind_map_mem (v := CmdResult.connectionClosed) h)

/-- Witness for C2: a session with pending ids 0 and 1 is
disconnected; request 1 is resolved with `ConnectionClosed`. -/
theorem disconnect_resolves_all_pending_witness :
    memNat 1 (ClientState.mk ConnState.Authenticated (some "tok") 2 [0, 1] []).pending = true ∧
    ((disconnect (ClientState.mk ConnState.Authenticated (some "tok") 2 [0, 1] [])).pending = [] ∧
     (disconnect (ClientState.mk ConnState.Authenticated (some "tok") 2 [0, 1] [])).state = ConnState.Disconnected ∧
     resultOf (disconnect (ClientState.mk ConnState.Authenticated (some "tok") 2 [0, 1] [])) 1 =
       some CmdResult.connectionClosed) :=
  ⟨by decide,
   disconnect_resolves_all_pending
     (ClientState.mk ConnState.Authenticated (some "tok") 2 [0, 1] []) 1 (by decide)⟩

/-- C5: `disconnect()` is idempotent — for every session state a
second call changes nothing (so it produces no error and, when already
`Disconnected` after a disconnect, is a no-op), and the state after
any call is `Disconnected`. -/
theorem disconnect_idempotent (c : ClientState) :
    disconnect (disconnect c) = disconnect c ∧
    (disconnect c).state = ConnState.Disconnected :=
  ⟨rfl, rfl⟩

/-- C1: correlation ids resolve responses, never arrival order.  Two
commands sent through the correlator while the session is alive get
distinct ids; when their response frames arrive in the reverse of send
order, each caller still observes exactly the response whose
correlation id matches its own request. -/
theorem correlator_out_of_order (c c1 c2 : ClientState) (i1 i2 : Nat)
    (r1 r2 : String)
    (h : alive c = true)
    (h1 : sendCmd c = (c1, some i1))
    (h2 : sendCmd c1 = (c2, some i2)) :
    i1 ≠ i2 ∧
    resultOf (handleResponse (handleResponse c2 i2 r2) i1 r1) i1 =
      some (CmdResult.success r1) ∧
    resultOf (handleResponse (handleResponse c2 i2 r2) i1 r1) i2 =
      some (CmdResult.success r2) := by
  unfold sendCmd at h1
  rw [if_pos h] at h1
  injection h1 with hA hB
  injection hB with hB
  subst hA
  subst hB
  have hal : alive { c with nextId := c.nextId + 1, pending := c.nextId :: c.pending } = true := h
  unfold sendCmd at h2
  rw [if_pos hal] at h2
  injection h2 with hC hD
  injection hD with hD
  subst hC
  subst hD
  have hne : c.nextId ≠ c.nextId + 1 := Nat.ne_of_lt (Nat.lt_succ_self _)
  have hne2 : c.nextId + 1 ≠ c.nextId := fun hx => hne hx.symm
  refine ⟨hne, ?_, ?_⟩ <;>
    simp [handleResponse, memNat, removeNat, resultOf, assocFind, hne, hne2]

/-- Witness for C1: from a fresh authenticated session, two sends get
ids 0 and 1; responses delivered reversed resolve each to its own
payload. -/
theorem correlator_out_of_order_witness :
    alive (ClientState.mk ConnState.Authenticated (some "tok") 0 [] []) = true ∧
    (0 ≠ 1 ∧
     resultOf (handleResponse (handleResponse
       (ClientState.mk ConnState.Authenticated (some "tok") 2 [1, 0] []) 1 "B") 0 "A") 0 =
       some (CmdResult.success "A") ∧
     resultOf (handleResponse (handleResponse
       (ClientState.mk ConnState.Authenticated (some "tok") 2 [1, 0] []) 1 "B") 0 "A") 1 =
       some (CmdResult.success "B")) :=
  ⟨by decide,
   correlator_out_of_order
     (ClientState.mk ConnState.Authenticated (some "tok") 0 [] [])
     (ClientState.mk ConnState.Authenticated (some "tok") 1 [0] [])
     (ClientState.mk ConnState.Authenticated (some "tok") 2 [1, 0] [])
     0 1 "A" "B" (by decide) (by decide) (by decide)⟩

/-- Modelled from the spec: the server's answer to a login command —
accepted with a token, or rejected with a failure message.  The login
implementation is missing from the source tree. -/
inductive LoginReply where
  | accepted (tok : String)
  | rejected (msg : String)
  deriving DecidableEq, Repr

/-- Modelled from the spec: the structured result of `login` exposed
to callers, `{ok: bool, msg?: string, token?}` (section 6).  The login
implementation is missing from the source tree. -/
structure LoginResult where
  ok : Bool
  msg : Option String
  token : Option String
  deriving DecidableEq, Repr

/-- Modelled from the spec: `login(username, password)` (section 4.1)
— valid from `Connected` (or `Authenticated`, idempotent re-auth); on
success it stores the token and moves to `Authenticated`; on rejection
(bad credentials) it leaves the session unchanged and returns a
structured `{ok: false, msg}` result instead of raising.  The login
implementation is missing from the source tree. -/
def login (c : ClientState) (reply : LoginReply) : ClientState × LoginResult :=
  if c.state = ConnState.Connected ∨ c.state = ConnState.Authenticated then
    match reply with
    | LoginReply.accepted tok =>
        ({ c with state := ConnState.Authenticated, token := some tok },
         LoginResult.mk true Option.none (some tok))
    | LoginReply.rejected m =>
        (c, LoginResult.mk false (some m) Option.none)
  else (c, LoginResult.mk false (some "not connected") Option.none)

/-- C7: a login answered by a server rejection leaves the session
exactly as it was — still `Connected`, neither regressed to
`Disconnected` nor advanced to `Authenticated` — and returns the
structured result `{ok: false, msg}` carrying the server's failure
message; being a total function into `ClientState × LoginResult`, it
raises no fatal error. -/
theorem login_rejected_is_recoverable (c : ClientState) (m : String)
    (h : c.state = ConnState.Connected) :
    (login c (LoginReply.rejected m)).1 = c ∧
    (login c (LoginReply.rejected m)).1.state = ConnState.Connected ∧
    (login c (LoginReply.rejected m)).2 =
      LoginResult.mk false (some m) Option.none := by
  unfold login
  rw [if_pos (Or.inl h)]
  exact ⟨rfl, h, rfl⟩

/-- Witness for C7: a concrete connected session receives a rejection
with message "bad credentials" and stays `Connected`. -/
theorem login_rejected_is_recoverable_witness :
    (ClientState.mk ConnState.Connected Option.none 0 [] []).state = ConnState.Connected ∧
    ((login (ClientState.mk ConnState.Connected Option.none 0 [] [])
        (LoginReply.rejected "bad credentials")).1 =
      ClientState.mk ConnState.Connected Option.none 0 [] [] ∧
     (login (ClientState.mk ConnState.Connected Option.none 0 [] [])
        (LoginReply.rejected "bad credentials")).1.state = ConnState.Connected ∧
     (login (ClientState.mk ConnState.Connected Option.none 0 [] [])
        (LoginReply.rejected "bad credentials")).2 =
      LoginResult.mk false (some "bad credentials") Option.none) :=
  ⟨rfl,
   login_rejected_is_recoverable
     (ClientState.mk ConnState.Connected Option.none 0 [] []) "bad credentials" rfl⟩

/-- Modelled from the spec: the event kinds of the dispatcher (section
4.3) — heartbeat, monitor-list-update, uptime-update, and an
extensible remainder.  The dispatcher implementation is missing from
the source tree. -/
inductive EventKind where
  | heartbeat
  | monitorListUpdate
  | uptimeUpdate
  | other (tag : String)
  deriving DecidableEq, Repr

/-- Modelled from the spec: a registered handler callback; `run`
returns `Except.error` when the handler raises, so a raising handler
is an ordinary value at the dispatch boundary.  The handler signatures
come from the example scripts; the dispatcher implementation is
missing from the source tree. -/
structure Handler where
  hid : Nat
  run : PyDict → Except String Unit

/-- Modelled from the spec: the EventSubscription table — a mapping
from event kind to the ordered sequence of registered handlers,
insertion order determining invocation order (section 3).  The
dispatcher implementation is missing from the source tree. -/
structure Dispatcher where
  table : List (EventKind × List Handler)

/-- Association-list update-or-insert, used to extend the handler
table. -/
def setAssoc {α β : Type} [DecidableEq α] (k : α) (v : β) : List (α × β) → List (α × β)
  | [] => [(k, v)]
  | (k2, w) :: rest => if k = k2 then (k, v) :: rest else (k2, w) :: setAssoc k v rest

/-- The ordered handler sequence registered for a kind (empty for
unknown kinds, which are ignored rather than errors). -/
def handlersFor (d : Dispatcher) (k : EventKind) : List Handler :=
  (assocFind k d.table).getD []

/-- Modelled from the spec: `on(eventKind, handler)` (section 4.3) —
appends the handler to the kind's ordered sequence.  The dispatcher
implementation is missing from the source tree. -/
def registerHandler (d : Dispatcher) (k : EventKind) (h : Handler) : Dispatcher :=
  Dispatcher.mk (setAssoc k (handlersFor d k ++ [h]) d.table)

/-- Run the registered handlers one after the other, catching each
handler's failure at the dispatch boundary and recording it next to
the handler's id instead of propagating it. -/
def runHandlers (v : PyDict) : List Handler → List (Nat × Except String Unit)
  | [] => []
  | h :: rest => (h.hid, h.run v) :: runHandlers v rest

/-- Modelled from the spec: `dispatch(eventKind, payload)` (section
4.3) — invokes every handler registered for the kind in registration
order, isolates handler failures, and leaves the subscription table
untouched.  The dispatcher implementation is missing from the source
tree. -/
def dispatch (d : Dispatcher) (k : EventKind) (v : PyDict) :
    Dispatcher × List (Nat × Except String Unit) :=
  (d, runHandlers v (handlersFor d k))

/-- Updating a key then reading it back yields the written value. -/
theorem assocFind_setAssoc {α β : Type} [DecidableEq α] (k : α) (v : β)
    (l : List (α × β)) : assocFind k (setAssoc k v l) = some v := by
  induction l with
  | nil => simp [setAssoc, assocFind]
  | cons p rest ih =>
    by_cases hx : k = p.1
    · simp [setAssoc, assocFind, hx]
    · simp [setAssoc, assocFind, hx, ih]

/-- Running handlers records one outcome per handler, in order. -/
theorem runHandlers_eq_map (v : PyDict) (hs : List Handler) :
    runHandlers v hs = hs.map (fun h => (h.hid, h.run v)) := by
  induction hs with
  | nil => rfl
  | cons h rest ih => simp [runHandlers, ih]

/-- C3: dispatching an event of any kind invokes all N registered
handlers in registration order — the outcome list is exactly the map
over the full handler sequence, so a handler whose `run` returns an
error still appears in place and every later-registered handler is
still invoked — the subscription table is unchanged (no handler is
deregistered) and `dispatch` is a total function (the dispatcher does
not crash); `registerHandler` appends at the end of the kind's
sequence, fixing registration order. -/
theorem dispatch_invokes_all_handlers_in_order (d : Dispatcher)
    (k : EventKind) (v : PyDict) (h : Handler) :
    (dispatch d k v).1 = d ∧
    (dispatch d k v).2 = (handlersFor d k).map (fun hh => (hh.hid, hh.run v)) ∧
    handlersFor (registerHandler d k h) k = handlersFor d k ++ [h] := by
  refine ⟨rfl, runHandlers_eq_map v (handlersFor d k), ?_⟩
  unfold registerHandler handlersFor
  rw [assocFind_setAssoc]
  rfl

/-- Modelled from the spec: the descriptor fields a caller passes to
`addMonitor` (section 4.4 and the example's `monitor_data`).  The
facade implementation is missing from the source tree. -/
structure MonitorFields where
  name : String
  mtype : String
  url : String
  interval : Nat
  timeout : Nat
  active : Bool
  deriving DecidableEq, Repr

/-- Modelled from the spec: the server-held MonitorDescriptor entity
(section 3) as read back through commands.  The facade implementation
is missing from the source tree. -/
structure MonitorDescriptor where
  name : String
  mtype : String
  url : String
  interval : Nat
  timeout : Nat
  active : Bool
  deriving DecidableEq, Repr

/-- Modelled from the spec: the monitoring server's monitor table —
the external collaborator answering facade commands, keyed by
server-assigned integer ids.  No server code is in the source tree. -/
structure ServerState where
  nextMonitorId : Nat
  monitors : List (Nat × MonitorDescriptor)
  deriving DecidableEq, Repr

/-- Modelled from the spec: the six facade operations of section 4.4.
The facade implementation is missing from the source tree. -/
inductive FacadeCmd where
  | addMonitor (m : MonitorFields)
  | getMonitor (id : Nat)
  | getMonitorList
  | pauseMonitor (id : Nat)
  | resumeMonitor (id : Nat)
  | deleteMonitor (id : Nat)
  deriving DecidableEq, Repr

/-- Modelled from the spec: the failure kinds a facade command
surfaces as structured results (section 7). -/
inductive CmdError where
  | notAuthenticated
  | invalidInput
  | notFound
  deriving DecidableEq, Repr

/-- Modelled from the spec: the structured `{ok, ...}` reply of a
facade command (section 6). -/
inductive Reply where
  | okUnit
  | okAdd (monitorID : Nat)
  | okMonitor (m : MonitorDescriptor)
  | okList (ms : List (Nat × MonitorDescriptor))
  | fail (e : CmdError)
  deriving DecidableEq, Repr

/-- Whether a reply carries `ok: true`. -/
def Reply.isOk : Reply → Bool
  | Reply.fail _ => false
  | _ => true

/-- Modelled from the spec: the facade's input validation before
dispatch (section 4.4) — required fields present and a positive
interval. -/
def validFields (m : MonitorFields) : Bool :=
  m.name != "" && m.url != "" && m.interval != 0

/-- The descriptor the server stores for freshly added fields. -/
def descrOf (m : MonitorFields) : MonitorDescriptor :=
  MonitorDescriptor.mk m.name m.mtype m.url m.interval m.timeout m.active

/-- Flip the active flag of the monitor with the given id. -/
def setActive (id : Nat) (b : Bool) (l : List (Nat × MonitorDescriptor)) :
    List (Nat × MonitorDescriptor) :=
  l.map (fun p => if p.1 = id then (p.1, { p.2 with active := b }) else p)

/-- Modelled from the spec: one synchronous round trip of a facade
command (section 4.4) — every operation requires `Authenticated` and
otherwise fails fast with `NotAuthenticated`, leaving both the client
(nothing queued, no correlation id consumed) and the server (nothing
sent on the transport) unchanged; in `Authenticated` state the command
consumes a correlation id and the server answers.  The facade
implementation is missing from the source tree. -/
def runFacade (c : ClientState) (srv : ServerState) (cmd : FacadeCmd) :
    ClientState × ServerState × Reply :=
  if c.state = ConnState.Authenticated then
    let c2 := { c with nextId := c.nextId + 1 }
    match cmd with
    | FacadeCmd.addMonitor m =>
        if validFields m then
          (c2,
           ServerState.mk (srv.nextMonitorId + 1)
             ((srv.nextMonitorId, descrOf m) :: srv.monitors),
           Reply.okAdd srv.nextMonitorId)
        else (c, srv, Reply.fail CmdError.invalidInput)
    | FacadeCmd.getMonitor id =>
        match assocFind id srv.monitors with
        | some m => (c2, srv, Reply.okMonitor m)
        | Option.none => (c2, srv, Reply.fail CmdError.notFound)
    | FacadeCmd.getMonitorList => (c2, srv, Reply.okList srv.monitors)
    | FacadeCmd.pauseMonitor id =>
        match assocFind id srv.monitors with
        | some _ =>
            (c2, ServerState.mk srv.nextMonitorId (setActive id false srv.monitors),
             Reply.okUnit)
        | Option.none => (c2, srv, Reply.fail CmdError.notFound)
    | FacadeCmd.resumeMonitor id =>
        match assocFind id srv.monitors with
        | some _ =>
            (c2, ServerState.mk srv.nextMonitorId (setActive id true srv.monitors),
             Reply.okUnit)
        | Option.none => (c2, srv, Reply.fail CmdError.notFound)
    | FacadeCmd.deleteMonitor id =>
        match assocFind id srv.monitors with
        | some _ =>
            (c2, ServerState.mk srv.nextMonitorId
               (srv.monitors.filter (fun p => p.1 != id)),
             Reply.okUnit)
        | Option.none => (c2, srv, Reply.fail CmdError.notFound)
  else (c, srv, Reply.fail CmdError.notAuthenticated)

/-- A command is answerable by a well-formed server response: valid
fields for `addMonitor`, an existing id for the id-directed commands,
nothing for `getMonitorList`. -/
def cmdWellFormed (srv : ServerState) (cmd : FacadeCmd) : Bool :=
  match cmd with
  | FacadeCmd.addMonitor m => validFields m
  | FacadeCmd.getMonitor id => (assocFind id srv.monitors).isSome
  | FacadeCmd.getMonitorList => true
  | FacadeCmd.pauseMonitor id => (assocFind id srv.monitors).isSome
  | FacadeCmd.resumeMonitor id => (assocFind id srv.monitors).isSome
  | FacadeCmd.deleteMonitor id => (assocFind id srv.monitors).isSome

/-- C4: every facade operation called in any state other than
`Authenticated` fails fast with a `NotAuthenticated` failure, with the
client state unchanged (nothing queued, no correlation id consumed)
and the server untouched (nothing sent on the transport); and after a
successful `login()` from `Connected`, the same command succeeds given
a well-formed server response. -/
theorem facade_requires_authentication :
    (∀ (c : ClientState) (srv : ServerState) (cmd : FacadeCmd),
        c.state ≠ ConnState.Authenticated →
        runFacade c srv cmd = (c, srv, Reply.fail CmdError.notAuthenticated)) ∧
    (∀ (c : ClientState) (srv : ServerState) (cmd : FacadeCmd) (tok : String),
        c.state = ConnState.Connected →
        cmdWellFormed srv cmd = true →
        ((runFacade (login c (LoginReply.accepted tok)).1 srv cmd).2.2).isOk = true) := by
  constructor
  · intro c srv cmd h
    unfold runFacade
    rw [if_neg h]
  · intro c srv cmd tok h hwf
    have hl : (login c (LoginReply.accepted tok)).1 =
        { c with state := ConnState.Authenticated, token := some tok } := by
      unfold login
      rw [if_pos (Or.inl h)]
    rw [hl]
    cases cmd with
    | addMonitor m =>
        have hv : validFields m = true := hwf
        simp [runFacade, hv, Reply.isOk]
    | getMonitor id =>
        have hs : (assocFind id srv.monitors).isSome = true := hwf
        obtain ⟨m, hm⟩ := Option.isSome_iff_exists.mp hs
        simp [runFacade, hm, Reply.isOk]
    | getMonitorList =>
        simp [runFacade, Reply.isOk]
    | pauseMonitor id =>
        have hs : (assocFind id srv.monitors).isSome = true := hwf
        obtain ⟨m, hm⟩ := Option.isSome_iff_exists.mp hs
        simp [runFacade, hm, Reply.isOk]
    | resumeMonitor id =>
        have hs : (assocFind id srv.monitors).isSome = true := hwf
        obtain ⟨m, hm⟩ := Option.isSome_iff_exists.mp hs
        simp [runFacade, hm, Reply.isOk]
    | deleteMonitor id =>
        have hs : (assocFind id srv.monitors).isSome = true := hwf
        obtain ⟨m, hm⟩ := Option.isSome_iff_exists.mp hs
        simp [runFacade, hm, Reply.isOk]

/-- Witness for C4: a merely connected session gets
`NotAuthenticated` for `getMonitorList` with client and server
unchanged; after an accepted login the same command succeeds. -/
theorem facade_requires_authentication_witness :
    ((ClientState.mk ConnState.Connected Option.none 0 [] []).state ≠ ConnState.Authenticated ∧
     runFacade (ClientState.mk ConnState.Connected Option.none 0 [] [])
         (ServerState.mk 0 []) FacadeCmd.getMonitorList =
       (ClientState.mk ConnState.Connected Option.none 0 [] [],
        ServerState.mk 0 [], Reply.fail CmdError.notAuthenticated)) ∧
    (cmdWellFormed (ServerState.mk 0 []) FacadeCmd.getMonitorList = true ∧
     ((runFacade (login (ClientState.mk ConnState.Connected Option.none 0 [] [])
         (LoginReply.accepted "tok")).1 (ServerState.mk 0 [])
         FacadeCmd.getMonitorList).2.2).isOk = true) :=
  ⟨⟨by decide,
    facade_requires_authentication.1
      (ClientState.mk ConnState.Connected Option.none 0 [] [])
      (ServerState.mk 0 []) FacadeCmd.getMonitorList (by decide)⟩,
   ⟨rfl,
    facade_requires_authentication.2
      (ClientState.mk ConnState.Connected Option.none 0 [] [])
      (ServerState.mk 0 []) FacadeCmd.getMonitorList "tok" rfl rfl⟩⟩

/-- A lookup whose key matches the head entry returns that entry. -/
theorem assocFind_cons_self {β : Type} (id : Nat) (v : β)
    (rest : List (Nat × β)) : assocFind id ((id, v) :: rest) = some v := by
  simp [assocFind]

/-- Flipping the active flag rewrites a matching head entry in
place. -/
theorem setActive_cons_self (id : Nat) (b : Bool) (d : MonitorDescriptor)
    (rest : List (Nat × MonitorDescriptor)) :
    setActive id b ((id, d) :: rest) =
      (id, { d with active := b }) :: setActive id b rest := by
  simp [setActive]

/-- C6: for the monitor id returned by a successful `addMonitor`,
`pauseMonitor(id)` answers `{ok: true}`, the following
`resumeMonitor(id)` answers `{ok: true}`, the monitor read back
afterwards is active again, and the round trip leaves its `name`,
`type` and `url` equal to their values before the pause. -/
theorem monitor_pause_resume_round_trip (c : ClientState) (srv : ServerState)
    (m : MonitorFields) (hauth : c.state = ConnState.Authenticated)
    (hvalid : validFields m = true) :
    ∃ id c1 srv1 c2 srv2 c3 srv3 d1 d3,
      runFacade c srv (FacadeCmd.addMonitor m) = (c1, srv1, Reply.okAdd id) ∧
      runFacade c1 srv1 (FacadeCmd.pauseMonitor id) = (c2, srv2, Reply.okUnit) ∧
      runFacade c2 srv2 (FacadeCmd.resumeMonitor id) = (c3, srv3, Reply.okUnit) ∧
      (runFacade c3 srv3 (FacadeCmd.getMonitor id)).2.2 = Reply.okMonitor d3 ∧
      assocFind id srv1.monitors = some d1 ∧
      d3.active = true ∧
      d3.name = d1.name ∧ d3.mtype = d1.mtype ∧ d3.url = d1.url := by
  refine ⟨srv.nextMonitorId,
    { c with nextId := c.nextId + 1 },
    ServerState.mk (srv.nextMonitorId + 1)
      ((srv.nextMonitorId, descrOf m) :: srv.monitors),
    { c with nextId := c.nextId + 1 + 1 },
    ServerState.mk (srv.nextMonitorId + 1)
      (setActive srv.nextMonitorId false
        ((srv.nextMonitorId, descrOf m) :: srv.monitors)),
    { c with nextId := c.nextId + 1 + 1 + 1 },
    ServerState.mk (srv.nextMonitorId + 1)
      (setActive srv.nextMonitorId true
        (setActive srv.nextMonitorId false
          ((srv.nextMonitorId, descrOf m) :: srv.monitors))),
    descrOf m, { descrOf m with active := true },
    ?_, ?_, ?_, ?_, ?_, rfl, rfl, rfl, rfl⟩
  · simp [runFacade, hauth, hvalid]
  · simp [runFacade, hauth, setActive_cons_self, assocFind_cons_self]
  · simp [runFacade, hauth, setActive_cons_self, assocFind_cons_self]
  · simp [runFacade, hauth, setActive_cons_self, assocFind_cons_self]
  · simp [assocFind_cons_self]

/-- Witness for C6: a concrete authenticated session adds an HTTP
monitor, pauses and resumes it; the theorem's hypotheses hold by
evaluation. -/
theorem monitor_pause_resume_round_trip_witness :
    (ClientState.mk ConnState.Authenticated (some "tok") 0 [] []).state =
      ConnState.Authenticated ∧
    validFields (MonitorFields.mk "Example Website" "http"
      "https://httpbin.org/status/200" 60 30 true) = true ∧
    (∃ id c1 srv1 c2 srv2 c3 srv3 d1 d3,
      runFacade (ClientState.mk ConnState.Authenticated (some "tok") 0 [] [])
          (ServerState.mk 0 [])
          (FacadeCmd.addMonitor (MonitorFields.mk "Example Website" "http"
            "https://httpbin.org/status/200" 60 30 true)) =
        (c1, srv1, Reply.okAdd id) ∧
      runFacade c1 srv1 (FacadeCmd.pauseMonitor id) = (c2, srv2, Reply.okUnit) ∧
      runFacade c2 srv2 (FacadeCmd.resumeMonitor id) = (c3, srv3, Reply.okUnit) ∧
      (runFacade c3 srv3 (FacadeCmd.getMonitor id)).2.2 = Reply.okMonitor d3 ∧
      assocFind id srv1.monitors = some d1 ∧
      d3.active = true ∧
      d3.name = d1.name ∧ d3.mtype = d1.mtype ∧ d3.url = d1.url) :=
  ⟨rfl, rfl,
   monitor_pause_resume_round_trip
     (ClientState.mk ConnState.Authenticated (some "tok") 0 [] [])
     (ServerState.mk 0 [])
     (MonitorFields.mk "Example Website" "http"
       "https://httpbin.org/status/200" 60 30 true) rfl rfl⟩

/-! ## basic_monitoring main (examples/basic_monitoring.py, lines 21-92)

The `main` coroutine wraps its whole command sequence in
`try/except Exception/finally`, with the single `client.disconnect()`
call in the `finally` block.  The embedding records the trace of
client calls for every combination of call outcomes: each awaited
client call may return a result or raise; `except Exception` catches
ordinary exceptions, while a `BaseException` (for example
`KeyboardInterrupt`) propagates — in both cases Python runs the
`finally` block first.  `print` and `asyncio.sleep` calls are elided
as client-irrelevant. -/

/-- A raised Python exception, split by whether `except Exception`
catches it. -/
inductive PyExn where
  | exception
  | baseException
  deriving DecidableEq, Repr

/-- The client calls `main` can make, in the order they appear in the
source. -/
inductive Call where
  | connect
  | login
  | getMonitorList
  | addMonitor
  | pauseMonitor
  | resumeMonitor
  | getMonitor
  | disconnect
  deriving DecidableEq, Repr

/-- The outcome of each awaited client call inside the `try` block: a
value, or a raised exception.  Results are reduced to the `ok` flag
(or a monitor count) that `main`'s control flow actually branches
on. -/
structure World where
  connect : Except PyExn Bool
  login : Except PyExn Bool
  getMonitorList : Except PyExn Nat
  addMonitor : Except PyExn Bool
  pauseMonitor : Except PyExn Bool
  resumeMonitor : Except PyExn Bool
  getMonitor : Except PyExn Bool

/-- Record one awaited client call: on a raise the trace stops with
that call; otherwise the continuation runs after it. -/
def step {α : Type} (c : Call) (out : Except PyExn α)
    (k : α → List Call × Except PyExn Unit) : List Call × Except PyExn Unit :=
  match out with
  | Except.error e => ([c], Except.error e)
  | Except.ok a => ((k a).1.cons c, (k a).2)

/-- The `try` block of `main` (lines 21-83): connect with an early
return when it fails, login with an early return when rejected, fetch
the monitor list, create a monitor, and on success pause it, resume it
when the pause succeeded, and read its details; no branch calls
`disconnect`. -/
def tryBody (w : World) : List Call × Except PyExn Unit :=
  step Call.connect w.connect fun connected =>
  if connected then
    step Call.login w.login fun lok =>
    if lok then
      step Call.getMonitorList w.getMonitorList fun _ =>
      step Call.addMonitor w.addMonitor fun cok =>
      if cok then
        step Call.pauseMonitor w.pauseMonitor fun pok =>
        if pok then
          step Call.resumeMonitor w.resumeMonitor fun _ =>
          step Call.getMonitor w.getMonitor fun _ => ([], Except.ok ())
        else
          step Call.getMonitor w.getMonitor fun _ => ([], Except.ok ())
      else ([], Except.ok ())
    else ([], Except.ok ())
  else ([], Except.ok ())

/-- The whole `main` coroutine: the `try` body, the `except Exception`
arm that swallows ordinary exceptions, and the `finally` block whose
`disconnect()` runs on every path before the coroutine terminates. -/
def runMain (w : World) : List Call × Except PyExn Unit :=
  ((tryBody w).1 ++ [Call.disconnect],
   match (tryBody w).2 with
   | Except.error PyExn.exception => Except.ok ()
   | r => r)

/-- A step whose call is not `disconnect` contributes no `disconnect`
to the trace when its continuation contributes none. -/
theorem step_count_disconnect {α : Type} (c : Call) (out : Except PyExn α)
    (k : α → List Call × Except PyExn Unit) (hc : c ≠ Call.disconnect)
    (hk : ∀ a, ((k a).1.count Call.disconnect) = 0) :
    ((step c out k).1.count Call.disconnect) = 0 := by
  cases out with
  | error e => simp [step, List.count_cons, hc]
  | ok a => simp [step, List.count_cons, hc, hk a]

/-- The `try` block never calls `disconnect`. -/
theorem tryBody_no_disconnect (w : World) :
    ((tryBody w).1.count Call.disconnect) = 0 := by
  unfold tryBody
  apply step_count_disconnect _ _ _ (by decide)
  intro connected
  cases connected
  · simp
  · apply step_count_disconnect _ _ _ (by decide)
    intro lok
    cases lok
    · simp
    · apply step_count_disconnect _ _ _ (by decide)
      intro _
      apply step_count_disconnect _ _ _ (by decide)
      intro cok
      cases cok
      · simp
      · apply step_count_disconnect _ _ _ (by decide)
        intro pok
        cases pok
        · apply step_count_disconnect _ _ _ (by decide)
          intro _
          simp
        · apply step_count_disconnect _ _ _ (by decide)
          intro _
          apply step_count_disconnect _ _ _ (by decide)
          intro _
          simp

/-- C10: on every execution path of `main` — connect returning false,
login rejected, any monitor command failing, an exception (caught or
not) raised mid-sequence, or full success — the trace contains exactly
one `disconnect` call, and it is the last client call before the
coroutine terminates. -/
theorem main_disconnects_exactly_once (w : World) :
    ((runMain w).1.count Call.disconnect) = 1 ∧
    (runMain w).1.getLast? = some Call.disconnect := by
  constructor
  · unfold runMain
    rw [List.count_append, tryBody_no_disconnect w]
    rfl
  · unfold runMain
    simp [List.getLast?_append]
